import Mathlib

/-!
Shallow embedding of the theme/preference subsystem of the TODO-APP-RN
repository (source file `src/hooks/useTheme.tsx`).

The subsystem is a React context provider that owns one boolean dark-mode
flag, persists it in AsyncStorage under the fixed key `"darkMode"`, and
derives a full color scheme from the flag.  The embedding below translates
each piece of that file:

* `ColorScheme`, `lightColors`, `darkColors` — the TypeScript interface and
  the two constant palettes (lines 16–104);
* `Storage`, `getItem`, `setItem` — AsyncStorage modelled as a key/value
  association list with the usual map semantics (one value per key,
  `setItem` overwrites);
* `StorageEvent` — a record of each individual AsyncStorage call the
  provider issues, so that properties about which keys are touched and
  about write ordering can be stated;
* `initialIsDarkMode`, `mountEffect`, `mountRun` — `useState(false)`
  (line 128) and the mount-time `useEffect` (lines 132–143);
* `toggleDarkMode`, `toggleWorld`, `toggleWorldPersist` — the toggle
  closure (lines 147–155), including the variant where the persist write
  fails;
* `useTheme` — the consumer accessor (lines 173–183), with the thrown
  exception modelled as `Except.error`.
-/

namespace ThemeSpec

/-- The `gradients` sub-record of `ColorScheme` (lines 27–36 of
`useTheme.tsx`).  Each TypeScript field has type `[string, string]`
(a two-color stop pair), modelled as `String × String`. -/
structure GradientSet where
  background : String × String
  surface : String × String
  primary : String × String
  success : String × String
  warning : String × String
  danger : String × String
  muted : String × String
  empty : String × String
deriving DecidableEq, Repr

/-- The `backgrounds` sub-record of `ColorScheme` (lines 37–40). -/
structure BackgroundSet where
  input : String
  editInput : String
deriving DecidableEq, Repr

/-- The `ColorScheme` interface (lines 16–43).  In TypeScript
`statusBarStyle` has the union type `"light-content" | "dark-content"`;
here it is a `String` and the restriction to those two literals is proved
as an invariant of the two concrete palettes. -/
structure ColorScheme where
  bg : String
  surface : String
  text : String
  textMuted : String
  border : String
  primary : String
  success : String
  warning : String
  danger : String
  shadow : String
  gradients : GradientSet
  backgrounds : BackgroundSet
  statusBarStyle : String
deriving DecidableEq, Repr

/-- The light-mode palette `lightColors` (lines 47–75). -/
def lightColors : ColorScheme :=
  { bg := "#f8fafc"
    surface := "#ffffff"
    text := "#1e293b"
    textMuted := "#64748b"
    border := "#e2e8f0"
    primary := "#3b82f6"
    success := "#10b981"
    warning := "#f59e0b"
    danger := "#ef4444"
    shadow := "#000000"
    gradients :=
      { background := ("#f8fafc", "#e2e8f0")
        surface := ("#ffffff", "#f8fafc")
        primary := ("#3b82f6", "#1d4ed8")
        success := ("#10b981", "#059669")
        warning := ("#f59e0b", "#d97706")
        danger := ("#ef4444", "#dc2626")
        muted := ("#9ca3af", "#6b7280")
        empty := ("#f3f4f6", "#e5e7eb") }
    backgrounds := { input := "#ffffff", editInput := "#ffffff" }
    statusBarStyle := "dark-content" }

/-- The dark-mode palette `darkColors` (lines 78–104). -/
def darkColors : ColorScheme :=
  { bg := "#0f172a"
    surface := "#1e293b"
    text := "#f1f5f9"
    textMuted := "#94a3b8"
    border := "#334155"
    primary := "#60a5fa"
    success := "#34d399"
    warning := "#fbbf24"
    danger := "#f87171"
    shadow := "#000000"
    gradients :=
      { background := ("#0f172a", "#1e293b")
        surface := ("#1e293b", "#334155")
        primary := ("#3b82f6", "#1d4ed8")
        success := ("#10b981", "#059669")
        warning := ("#f59e0b", "#d97706")
        danger := ("#ef4444", "#dc2626")
        muted := ("#374151", "#4b5563")
        empty := ("#374151", "#4b5563") }
    backgrounds := { input := "#1e293b", editInput := "#0f172a" }
    statusBarStyle := "light-content" }

/-- `JSON.stringify` restricted to booleans, as used at line 154:
`JSON.stringify(true) = "true"`, `JSON.stringify(false) = "false"`. -/
def jsonStringify (b : Bool) : String := if b then "true" else "false"

/-- `JSON.parse` restricted to the boolean domain, as used at line 140.
The provider is the only writer of the key and only ever stores
`"true"` or `"false"`, so these are the only inputs that parse to a
boolean; any other string is treated as a parse failure (in JavaScript,
`JSON.parse` would throw inside the `.then` callback, so `setIsDarkMode`
would never be called — modelled as `none`). -/
def jsonParseBool : String → Option Bool
  | "true" => some true
  | "false" => some false
  | _ => none

/-- AsyncStorage modelled as an association list of key/value pairs. -/
abbrev Storage := List (String × String)

/-- `AsyncStorage.getItem`: the value stored under `k`, or `none` when the
key is absent. -/
def getItem (st : Storage) (k : String) : Option String :=
  (st.find? (fun p => p.1 == k)).map (fun p => p.2)

/-- `AsyncStorage.setItem`: store `v` under `k`, overwriting any previous
value for that key. -/
def setItem (st : Storage) (k v : String) : Storage :=
  (k, v) :: st.filter (fun p => p.1 != k)

/-- One AsyncStorage call issued by the provider: a read of a key or a
write of a key/value pair. -/
inductive StorageEvent where
  | get (key : String)
  | set (key : String) (value : String)
deriving DecidableEq, Repr

/-- Apply one storage event to the store (reads leave it unchanged). -/
def applyEvent (st : Storage) : StorageEvent → Storage
  | .get _ => st
  | .set k v => setItem st k v

/-- Apply a sequence of storage events in order. -/
def applyEvents (st : Storage) (evs : List StorageEvent) : Storage :=
  evs.foldl applyEvent st

/-- The fixed storage key, as written literally at lines 135 and 154. -/
def darkModeKey : String := "darkMode"

/-- The initial value of the `isDarkMode` state: `useState(false)` at
line 128. -/
def initialIsDarkMode : Bool := false

/-- The mount-time `useEffect` callback (lines 132–143) applied to the
result of the `AsyncStorage.getItem` promise.  `Except.error` is the
promise rejecting (the `.then` callback never runs, so the flag is
unchanged and nothing is surfaced).  `Except.ok none` is an absent key.
On `Except.ok (some value)` the code runs `if (value)` — false for the
empty string under JavaScript truthiness — and then
`setIsDarkMode(JSON.parse(value))`; a `JSON.parse` failure throws inside
the callback, so the flag is unchanged. -/
def mountEffect (read : Except Unit (Option String)) (isDarkMode : Bool) : Bool :=
  match read with
  | .error _ => isDarkMode
  | .ok none => isDarkMode
  | .ok (some value) =>
      if value = "" then isDarkMode
      else
        match jsonParseBool value with
        | some b => b
        | none => isDarkMode

/-- A successful mount against a concrete store: the provider issues one
`getItem` on the fixed key (line 135) and feeds the result to the effect
callback.  Returns the resulting flag and the read event issued. -/
def mountRun (st : Storage) (isDarkMode : Bool) : Bool × StorageEvent :=
  (mountEffect (.ok (getItem st darkModeKey)) isDarkMode, .get darkModeKey)

/-- The body of the `toggleDarkMode` closure (lines 147–155), applied to
the flag value the closure observes: compute `newMode = !isDarkMode`,
update the state to `newMode`, and issue one
`setItem("darkMode", JSON.stringify(newMode))` write.  Returns the new
flag and the write event. -/
def toggleDarkMode (isDarkMode : Bool) : Bool × StorageEvent :=
  let newMode := !isDarkMode
  (newMode, .set darkModeKey (jsonStringify newMode))

/-- The provider's in-memory flag together with the device store. -/
structure World where
  flag : Bool
  storage : Storage
deriving DecidableEq, Repr

/-- One toggle call whose persist write succeeds. -/
def toggleWorld (w : World) : World :=
  let r := toggleDarkMode w.flag
  { flag := r.1, storage := applyEvent w.storage r.2 }

/-- One toggle call where the persist write may fail (`persistOk`).
Line 151 updates the state before line 154 awaits the write, so the flag
update is unconditional; a rejected `setItem` promise only makes the
`async` function's returned promise reject, which no caller observes. -/
def toggleWorldPersist (w : World) (persistOk : Bool) : World :=
  let r := toggleDarkMode w.flag
  { flag := r.1
    storage := if persistOk then applyEvent w.storage r.2 else w.storage }

/-- `n` successive completed toggle calls, each observing the state the
previous one produced. -/
def runToggles : Nat → World → World
  | 0, w => w
  | n + 1, w => runToggles n (toggleWorld w)

/-- A fresh install: default flag and an empty store (key absent). -/
def freshWorld : World := { flag := initialIsDarkMode, storage := [] }

/-- The derivation at line 159:
`const colors = isDarkMode ? darkColors : lightColors`. -/
def colors (isDarkMode : Bool) : ColorScheme :=
  if isDarkMode then darkColors else lightColors

/-- The data fields of the `ThemeContextType` value provided at line 165.
The `toggleDarkMode` closure member is modelled separately by the
`toggleDarkMode` function above. -/
structure ThemeContextType where
  isDarkMode : Bool
  colors : ColorScheme
deriving DecidableEq, Repr

/-- The value the provider publishes for a given flag (line 165). -/
def themeProviderValue (isDarkMode : Bool) : ThemeContextType :=
  { isDarkMode := isDarkMode, colors := colors isDarkMode }

/-- The message of the error thrown at line 179. -/
def useThemeErrorMsg : String := "useTheme must be used within a ThemeProvider"

/-- The `useTheme` accessor (lines 173–183).  `context` is what
`useContext(ThemeContext)` returns: `none` outside any provider scope
(the context's default value is `undefined`), `some c` inside.  The
synchronous `throw` is modelled as `Except.error`. -/
def useTheme (context : Option ThemeContextType) : Except String ThemeContextType :=
  match context with
  | none => .error useThemeErrorMsg
  | some c => .ok c

/-- A string pair with both components populated (nonempty). -/
def nonemptyPair (p : String × String) : Bool := p.1 != "" && p.2 != ""

/-- Every field of the scheme is populated and `statusBarStyle` is one of
the two permitted literals. -/
def completeScheme (c : ColorScheme) : Bool :=
  c.bg != "" && c.surface != "" && c.text != "" && c.textMuted != "" &&
  c.border != "" && c.primary != "" && c.success != "" && c.warning != "" &&
  c.danger != "" && c.shadow != "" &&
  nonemptyPair c.gradients.background && nonemptyPair c.gradients.surface &&
  nonemptyPair c.gradients.primary && nonemptyPair c.gradients.success &&
  nonemptyPair c.gradients.warning && nonemptyPair c.gradients.danger &&
  nonemptyPair c.gradients.muted && nonemptyPair c.gradients.empty &&
  c.backgrounds.input != "" && c.backgrounds.editInput != "" &&
  (c.statusBarStyle == "light-content" || c.statusBarStyle == "dark-content")

/-- The set of keys a scheme exposes.  Both palettes inhabit the same
record type `ColorScheme`, so the key set is determined by the type; this
function makes that explicit for comparison. -/
def schemeKeys (_ : ColorScheme) : List String :=
  ["bg", "surface", "text", "textMuted", "border", "primary", "success",
   "warning", "danger", "shadow", "gradients", "backgrounds", "statusBarStyle"]

/-- The persist writes issued by a burst of toggle calls in rapid
succession: `snapshots` lists, per call, the flag value current (from the
calling closure's point of view) at the time of that call; each call
independently runs the `toggleDarkMode` body on its snapshot and issues
its own write, and the writes land on the store in call order. -/
def rapidEvents (snapshots : List Bool) : List StorageEvent :=
  snapshots.map (fun b => (toggleDarkMode b).2)

/-! ## Helper lemmas -/

/-- Reading back the key just written returns the written value. -/
lemma getItem_setItem (st : Storage) (k v : String) :
    getItem (setItem st k v) k = some v := by
  simp [getItem, setItem, List.find?]

/-- A toggle call flips the in-memory flag. -/
lemma toggleWorld_flag (w : World) : (toggleWorld w).flag = !w.flag := rfl

/-- The flag after `n` completed toggles is the starting flag xored with
the parity of `n`. -/
lemma runToggles_flag (n : Nat) (w : World) :
    (runToggles n w).flag = (w.flag ^^ decide (n % 2 = 1)) := by
  induction n generalizing w with
  | zero => simp [runToggles]
  | succ n ih =>
    rw [runToggles, ih]
    rcases Nat.mod_two_eq_zero_or_one n with h | h
    · have h2 : (n + 1) % 2 = 1 := by omega
      simp [toggleWorld, toggleDarkMode, h, h2]
    · have h2 : (n + 1) % 2 = 0 := by omega
      simp [toggleWorld, toggleDarkMode, h, h2]

/-- After at least one completed toggle, the store holds the serialized
current flag under the fixed key. -/
lemma runToggles_storage (n : Nat) (w : World) (h : 0 < n) :
    getItem (runToggles n w).storage darkModeKey =
      some (jsonStringify (runToggles n w).flag) := by
  induction n generalizing w with
  | zero => omega
  | succ n ih =>
    rw [runToggles]
    rcases Nat.eq_zero_or_pos n with h0 | hpos
    · subst h0
      simp [runToggles, toggleWorld, toggleDarkMode, applyEvent, getItem_setItem]
    · exact ih (toggleWorld w) hpos

/-- Parsing a serialized boolean recovers it, and the serialization is
never the empty string. -/
lemma jsonParseBool_stringify (b : Bool) :
    jsonParseBool (jsonStringify b) = some b ∧ jsonStringify b ≠ "" := by
  cases b <;> exact ⟨rfl, by decide⟩

/-! ## Claims -/

/-- C1: the published color scheme is a pure function of the dark-mode
flag: a true flag publishes exactly `darkColors`, a false flag publishes
exactly `lightColors`, and for every flag value the published scheme is
one of those two constants — no intermediate or blended value. -/
theorem colors_pure_function_of_flag :
    colors true = darkColors ∧ colors false = lightColors ∧
    (∀ b : Bool, colors b = darkColors ∨ colors b = lightColors) ∧
    (∀ b : Bool, (themeProviderValue b).colors = colors b) := by
  refine ⟨rfl, rfl, ?_, fun _ => rfl⟩
  intro b
  cases b
  · exact Or.inr rfl
  · exact Or.inl rfl

/-- C2: calling `useTheme` outside a provider scope (context
`undefined`/`none`) fails immediately with the error message naming the
missing `ThemeProvider` and never returns a scheme; inside the provider
scope it never fails and returns exactly the provided context. -/
theorem useTheme_fail_fast_outside_provider :
    useTheme none = Except.error "useTheme must be used within a ThemeProvider" ∧
    (∀ c : ThemeContextType, useTheme none ≠ Except.ok c) ∧
    (∀ c : ThemeContextType, useTheme (some c) = Except.ok c) := by
  refine ⟨rfl, ?_, fun _ => rfl⟩
  intro c h
  exact Except.noConfusion h

/-- C3: a freshly constructed provider — before any persisted value has
loaded — has `isDarkMode = false` and publishes `colors = lightColors`. -/
theorem fresh_provider_defaults_light :
    initialIsDarkMode = false ∧
    colors initialIsDarkMode = lightColors ∧
    themeProviderValue initialIsDarkMode =
      { isDarkMode := false, colors := lightColors } :=
  ⟨rfl, rfl, rfl⟩

/-- C4: the toggle is self-inverse: two successive toggle calls, the
second observing the state produced by the first, restore the original
flag value. -/
theorem toggle_self_inverse (w : World) :
    (toggleWorld (toggleWorld w)).flag = w.flag := by
  simp [toggleWorld, toggleDarkMode]

/-- C4 witness. -/
theorem toggle_self_inverse_witness :
    (toggleWorld (toggleWorld freshWorld)).flag = freshWorld.flag :=
  toggle_self_inverse freshWorld

/-- C5: starting from a fresh install, after `n` completed toggle calls a
newly constructed provider reading the same storage key yields
`isDarkMode = true` exactly when `n` is odd and `false` when `n` is
even. -/
theorem persistence_round_trip (n : Nat) :
    (mountRun (runToggles n freshWorld).storage initialIsDarkMode).1 =
      decide (n % 2 = 1) := by
  rcases Nat.eq_zero_or_pos n with h0 | hpos
  · subst h0; rfl
  · have hs := runToggles_storage n freshWorld hpos
    have hf := runToggles_flag n freshWorld
    have hb := jsonParseBool_stringify ((runToggles n freshWorld).flag)
    simp only [mountRun, mountEffect, hs]
    rw [if_neg hb.2, hb.1, hf]
    simp [freshWorld, initialIsDarkMode]

/-- C6: at initialization, a value present under the fixed key (which,
the provider being the only writer, is a serialized boolean) is
deserialized and adopted as the flag's value; if the value is absent or
the read fails, the flag stays at its default `false`, and the effect
surfaces no error (it totalizes to a flag value in every case). -/
theorem init_read_silent_default :
    (∀ flag : Bool, mountEffect (Except.error ()) flag = flag) ∧
    mountEffect (Except.error ()) initialIsDarkMode = false ∧
    (∀ flag : Bool, mountEffect (Except.ok none) flag = flag) ∧
    mountEffect (Except.ok none) initialIsDarkMode = false ∧
    (∀ b flag : Bool, mountEffect (Except.ok (some (jsonStringify b))) flag = b) := by
  refine ⟨fun _ => rfl, rfl, fun _ => rfl, rfl, ?_⟩
  intro b flag
  cases b <;> rfl

/-- C7: when the persist step of a toggle fails, the in-memory flag set
by that toggle stands (same value as on a successful persist, never
rolled back), the result is an ordinary state (no error escapes to the
caller), and nothing else changes: the store is left exactly as it was
and no retry write occurs. -/
theorem toggle_persist_failure_state_stands (w : World) :
    (toggleWorldPersist w false).flag = !w.flag ∧
    (toggleWorldPersist w false).flag = (toggleWorldPersist w true).flag ∧
    (toggleWorldPersist w false).storage = w.storage :=
  ⟨rfl, rfl, rfl⟩

/-- C8: the provider touches exactly one persistent key — the fixed
constant `"darkMode"` — both for the startup read and for every toggle's
write, and every value it ever stores is the string-serialized boolean
`"true"` or `"false"`. -/
theorem single_fixed_key_serialized_boolean :
    darkModeKey = "darkMode" ∧
    (∀ (st : Storage) (flag : Bool),
      (mountRun st flag).2 = StorageEvent.get darkModeKey) ∧
    (∀ flag : Bool, (toggleDarkMode flag).2 =
      StorageEvent.set darkModeKey (jsonStringify (!flag))) ∧
    (∀ b : Bool, jsonStringify b = "true" ∨ jsonStringify b = "false") := by
  refine ⟨rfl, fun _ _ => rfl, fun _ => rfl, ?_⟩
  intro b
  cases b
  · exact Or.inr rfl
  · exact Or.inl rfl

/-- C9: scheme completeness — the light and dark palettes expose the same
set of keys, every field is populated (nonempty) in both, and each
variant's `statusBarStyle` is exactly one of the literals
`"light-content"` and `"dark-content"`. -/
theorem scheme_completeness :
    schemeKeys lightColors = schemeKeys darkColors ∧
    completeScheme lightColors = true ∧
    completeScheme darkColors = true ∧
    lightColors.statusBarStyle = "dark-content" ∧
    darkColors.statusBarStyle = "light-content" := by
  refine ⟨rfl, by decide, by decide, rfl, rfl⟩

/-- C10: toggle calls in rapid succession, with no debouncing or queuing:
each call independently negates the flag value current at its own call
time, each issues exactly one persist write of its own (one event per
call, carrying the negation of that call's snapshot), and on the storage
layer the last write wins — after any burst the stored value is the one
written by the last call. -/
theorem rapid_toggles_last_write_wins :
    (∀ b : Bool, (toggleDarkMode b).1 = !b) ∧
    (∀ snapshots : List Bool,
      rapidEvents snapshots =
        snapshots.map (fun b => StorageEvent.set darkModeKey (jsonStringify (!b))) ∧
      (rapidEvents snapshots).length = snapshots.length) ∧
    (∀ (st : Storage) (calls : List Bool) (lastCall : Bool),
      getItem (applyEvents st (rapidEvents (calls ++ [lastCall]))) darkModeKey =
        some (jsonStringify (!lastCall))) := by
  refine ⟨fun _ => rfl, fun snapshots => ⟨rfl, by simp [rapidEvents]⟩, ?_⟩
  intro st calls lastCall
  simp [rapidEvents, applyEvents, List.map_append, List.foldl_append,
    applyEvent, toggleDarkMode, getItem_setItem]

end ThemeSpec
